import Mathlib

/-!
# Verification of the mod-representation core of `akatsuki-pp-rs`

This file gives a shallow embedding of `src/model/mods.rs` and proves the
behavioural properties of its query functions.  Floating-point values of the
source (`f64`, `f32`) are embedded as `Rat`: every quantity the properties
speak about (nominal clock rates, stat multipliers, key counts, explicit
settings passed through unchanged) is exact, so rational arithmetic is a
faithful model of the computations involved.

The repository depends on the external crate `rosu_mods` for the three raw
mod representations.  The parts of that crate the queries rely on (the legacy
bit layout, identity membership, `checked_bits`, the nominal legacy clock
rates) are modelled from the specification's description of that boundary;
each such definition carries a doc comment saying so.
-/

namespace AkatsukiPP

/-- The four rulesets a lazer game mod can belong to (`Osu`, `Taiko`, `Catch`,
`Mania` variants of the generated `rosu_mods` mod structs). -/
inductive Mode
  | Osu
  | Taiko
  | Catch
  | Mania
deriving DecidableEq, Repr

/-- Modelled from the spec: the mode-agnostic mod identities of
`rosu_mods::GameModIntermode`.  All identities that the queries of
`src/model/mods.rs` mention appear as their own constructor; the (many)
remaining identities of the catalog are represented uniformly by `Other`,
which no query of this file ever matches specially. -/
inductive GameModIntermode
  | NoFail
  | Easy
  | TouchDevice
  | Hidden
  | HardRock
  | SuddenDeath
  | DoubleTime
  | Relax
  | HalfTime
  | Nightcore
  | Flashlight
  | Autoplay
  | SpunOut
  | Autopilot
  | Perfect
  | FadeIn
  | Random
  | Cinema
  | TargetPractice
  | ScoreV2
  | Mirror
  | OneKey
  | TwoKeys
  | ThreeKeys
  | FourKeys
  | FiveKeys
  | SixKeys
  | SevenKeys
  | EightKeys
  | NineKeys
  | TenKeys
  | DualStages
  | Daycore
  | Blinds
  | Classic
  | Invert
  | HoldOff
  | Traceable
  | DifficultyAdjust
  | Other (n : Nat)
deriving DecidableEq, Repr

/-- Modelled from the spec: `rosu_mods::GameModIntermode::bits` — the legacy
bit pattern of an identity, `none` for identities that postdate the legacy
bit layout (the spec's "legacy-representable" partition, §4.5/§4.1).  The
numeric values are the historical legacy layout: bits 0–30, with `Nightcore`
including the `DoubleTime` bit and `Perfect` including the `SuddenDeath`
bit. -/
def GameModIntermode.bits : GameModIntermode → Option Nat
  | .NoFail => some 1
  | .Easy => some 2
  | .TouchDevice => some 4
  | .Hidden => some 8
  | .HardRock => some 16
  | .SuddenDeath => some 32
  | .DoubleTime => some 64
  | .Relax => some 128
  | .HalfTime => some 256
  | .Nightcore => some 576
  | .Flashlight => some 1024
  | .Autoplay => some 2048
  | .SpunOut => some 4096
  | .Autopilot => some 8192
  | .Perfect => some 16416
  | .FourKeys => some 32768
  | .FiveKeys => some 65536
  | .SixKeys => some 131072
  | .SevenKeys => some 262144
  | .EightKeys => some 524288
  | .FadeIn => some 1048576
  | .Random => some 2097152
  | .Cinema => some 4194304
  | .TargetPractice => some 8388608
  | .NineKeys => some 16777216
  | .DualStages => some 33554432
  | .OneKey => some 67108864
  | .ThreeKeys => some 134217728
  | .TwoKeys => some 268435456
  | .ScoreV2 => some 536870912
  | .Mirror => some 1073741824
  | .TenKeys => none
  | .Daycore => none
  | .Blinds => none
  | .Classic => none
  | .Invert => none
  | .HoldOff => none
  | .Traceable => none
  | .DifficultyAdjust => none
  | .Other _ => none

/-- A single lazer mod entry (`rosu_mods::GameMod`).  The Rust type is a
large generated enum with one variant per (identity, ruleset) pair, each
carrying that mod's optional settings; we flatten it into the identity, the
ruleset, and the union of all setting fields the queries of
`src/model/mods.rs` read.  Settings a given identity does not possess are
simply never read for it, exactly as in the source's pattern matches. -/
structure GameMod where
  id : GameModIntermode
  mode : Mode
  speed_change : Option Rat
  no_slider_head_accuracy : Option Bool
  reflection : Option String
  approach_rate : Option Rat
  circle_size : Option Rat
  drain_rate : Option Rat
  overall_difficulty : Option Rat
  scroll_speed : Option Rat
  hard_rock_offsets : Option Bool
  seed : Option Rat
deriving DecidableEq, Repr

/-- A mod entry that carries no settings at all (most witnesses below only
need the identity and the ruleset). -/
def GameMod.plain (id : GameModIntermode) (mode : Mode) : GameMod :=
  ⟨id, mode, none, none, none, none, none, none, none, none, none, none⟩

/-- `rosu_mods::GameMod::intermode` — the mode-agnostic identity of a lazer
mod entry. -/
def GameMod.intermode (m : GameMod) : GameModIntermode :=
  m.id

/-- Modelled from the spec: `rosu_mods::GameMod::clock_rate` — the explicit
configured rate (`speed_change` setting) of a rate-adjusting mod, `none` when
the setting is absent or the mod is not one of the four fixed rate-adjusting
identities (§4.2: absent explicit rates fall through). -/
def GameMod.clock_rate (m : GameMod) : Option Rat :=
  match m.id with
  | .DoubleTime => m.speed_change
  | .HalfTime => m.speed_change
  | .Nightcore => m.speed_change
  | .Daycore => m.speed_change
  | _ => none

/-- `rosu_mods::GameMods::contains_intermode` — whether some entry of the
lazer collection has the given identity. -/
def GameModsLazer.contains_intermode (mods : List GameMod) (im : GameModIntermode) : Bool :=
  mods.any fun m => decide (m.intermode = im)

/-- Modelled from the spec: `rosu_mods::GameModsIntermode` is a set of mod
identities; membership is the only structure the queries use, so the set is
embedded as a list queried through `decide (· ∈ ·)`. -/
def GameModsIntermode.contains (mods : List GameModIntermode) (im : GameModIntermode) : Bool :=
  decide (im ∈ mods)

/-- Modelled from the spec: `rosu_mods::GameModsIntermode::checked_bits` —
the bitwise-or of every member's legacy bits when all members are
legacy-representable, `none` as soon as one member has no legacy bits
(§4.1's lossless-downgrade test). -/
def GameModsIntermode.checked_bits : List GameModIntermode → Option Nat
  | [] => some 0
  | m :: rest =>
    match m.bits, GameModsIntermode.checked_bits rest with
    | some v, some b => some (v ||| b)
    | _, _ => none

/-- Modelled from the spec: `rosu_mods::GameModsIntermode::legacy_clock_rate`
— the fixed legacy-compatible nominal rate inferred from whichever
rate-affecting identity is present (§4.2). -/
def GameModsIntermode.legacy_clock_rate (mods : List GameModIntermode) : Rat :=
  if GameModsIntermode.contains mods .DoubleTime || GameModsIntermode.contains mods .Nightcore then
    1.5
  else if GameModsIntermode.contains mods .HalfTime || GameModsIntermode.contains mods .Daycore then
    0.75
  else
    1.0

/-- Modelled from the spec: `rosu_mods::GameModsLegacy` — a fixed-width bit
set over the historical mod enumeration (bits 0–30). -/
structure GameModsLegacy where
  bits : Nat
deriving DecidableEq, Repr

/-- The legacy flag `NoFail` (bit 0). -/
def GameModsLegacy.NoFail : Nat := 1
/-- The legacy flag `Easy` (bit 1). -/
def GameModsLegacy.Easy : Nat := 2
/-- The legacy flag `TouchDevice` (bit 2). -/
def GameModsLegacy.TouchDevice : Nat := 4
/-- The legacy flag `Hidden` (bit 3). -/
def GameModsLegacy.Hidden : Nat := 8
/-- The legacy flag `HardRock` (bit 4). -/
def GameModsLegacy.HardRock : Nat := 16
/-- The legacy flag `DoubleTime` (bit 6). -/
def GameModsLegacy.DoubleTime : Nat := 64
/-- The legacy flag `Relax` (bit 7). -/
def GameModsLegacy.Relax : Nat := 128
/-- The legacy flag `HalfTime` (bit 8). -/
def GameModsLegacy.HalfTime : Nat := 256
/-- The legacy flag `Flashlight` (bit 10). -/
def GameModsLegacy.Flashlight : Nat := 1024
/-- The legacy flag `SpunOut` (bit 12). -/
def GameModsLegacy.SpunOut : Nat := 4096
/-- The legacy flag `Autopilot` (bit 13). -/
def GameModsLegacy.Autopilot : Nat := 8192
/-- The legacy flag `Key4` (bit 15). -/
def GameModsLegacy.Key4 : Nat := 32768
/-- The legacy flag `Key5` (bit 16). -/
def GameModsLegacy.Key5 : Nat := 65536
/-- The legacy flag `Key6` (bit 17). -/
def GameModsLegacy.Key6 : Nat := 131072
/-- The legacy flag `Key7` (bit 18). -/
def GameModsLegacy.Key7 : Nat := 262144
/-- The legacy flag `Key8` (bit 19). -/
def GameModsLegacy.Key8 : Nat := 524288
/-- The legacy flag `Key9` (bit 24). -/
def GameModsLegacy.Key9 : Nat := 16777216
/-- The legacy flag `Key1` (bit 26). -/
def GameModsLegacy.Key1 : Nat := 67108864
/-- The legacy flag `Key3` (bit 27). -/
def GameModsLegacy.Key3 : Nat := 134217728
/-- The legacy flag `Key2` (bit 28). -/
def GameModsLegacy.Key2 : Nat := 268435456

/-- Modelled from the spec: bitflags containment — all bits of the flag are
set. -/
def GameModsLegacy.contains (m : GameModsLegacy) (flag : Nat) : Bool :=
  m.bits &&& flag == flag

/-- Modelled from the spec: `rosu_mods::GameModsLegacy::from_bits` —
unrecognized bits are dropped silently; the defined flags occupy exactly
bits 0–30, so the mask is `2^31 - 1` (§4.1, §7). -/
def GameModsLegacy.from_bits (bits : Nat) : GameModsLegacy :=
  ⟨bits &&& 2147483647⟩

/-- Modelled from the spec: `rosu_mods::GameModsLegacy::clock_rate` — the
fixed nominal mapping derived purely from bit flags (§4.2).  The `Nightcore`
pattern includes the `DoubleTime` bit, so testing `DoubleTime` covers both. -/
def GameModsLegacy.clock_rate (m : GameModsLegacy) : Rat :=
  if m.contains GameModsLegacy.DoubleTime then
    1.5
  else if m.contains GameModsLegacy.HalfTime then
    0.75
  else
    1.0

/-- `GameMods` of `src/model/mods.rs`: the tagged union of the three mod
representations. -/
inductive GameMods
  | Lazer (mods : List GameMod)
  | Intermode (mods : List GameModIntermode)
  | Legacy (mods : GameModsLegacy)
deriving DecidableEq, Repr

/-- `Reflection` of `src/model/mods.rs`. -/
inductive Reflection
  | None
  | Vertical
  | Horizontal
  | Both
deriving DecidableEq, Repr

/-- `GameMods::DEFAULT`: the legacy variant with no bits set
(`GameModsLegacy::NoMod`).  `impl Default for GameMods` returns this value. -/
def GameMods.DEFAULT : GameMods :=
  .Legacy ⟨0⟩

/-- `GameMods::clock_rate` (`src/model/mods.rs:60`). -/
def GameMods.clock_rate : GameMods → Rat
  | .Lazer mods =>
    (mods.findSome? fun m =>
      match m.intermode with
      | .DoubleTime | .HalfTime => m.clock_rate
      | .Nightcore => m.clock_rate.map fun r => (1.5 : Rat) * (r / 1.5)
      | .Daycore => m.clock_rate.map fun r => (0.75 : Rat) * (r / 0.75)
      | _ => none).getD 1.0
  | .Intermode mods => GameModsIntermode.legacy_clock_rate mods
  | .Legacy mods => mods.clock_rate

/-- `GameMods::nf` (`impl_has_mod!`): legacy-representable. -/
def GameMods.nf : GameMods → Bool
  | .Lazer mods => GameModsLazer.contains_intermode mods .NoFail
  | .Intermode mods => GameModsIntermode.contains mods .NoFail
  | .Legacy mods => mods.contains GameModsLegacy.NoFail

/-- `GameMods::ez` (`impl_has_mod!`): legacy-representable. -/
def GameMods.ez : GameMods → Bool
  | .Lazer mods => GameModsLazer.contains_intermode mods .Easy
  | .Intermode mods => GameModsIntermode.contains mods .Easy
  | .Legacy mods => mods.contains GameModsLegacy.Easy

/-- `GameMods::td` (`impl_has_mod!`): legacy-representable. -/
def GameMods.td : GameMods → Bool
  | .Lazer mods => GameModsLazer.contains_intermode mods .TouchDevice
  | .Intermode mods => GameModsIntermode.contains mods .TouchDevice
  | .Legacy mods => mods.contains GameModsLegacy.TouchDevice

/-- `GameMods::hd` (`impl_has_mod!`): legacy-representable. -/
def GameMods.hd : GameMods → Bool
  | .Lazer mods => GameModsLazer.contains_intermode mods .Hidden
  | .Intermode mods => GameModsIntermode.contains mods .Hidden
  | .Legacy mods => mods.contains GameModsLegacy.Hidden

/-- `GameMods::hr` (`impl_has_mod!`): legacy-representable. -/
def GameMods.hr : GameMods → Bool
  | .Lazer mods => GameModsLazer.contains_intermode mods .HardRock
  | .Intermode mods => GameModsIntermode.contains mods .HardRock
  | .Legacy mods => mods.contains GameModsLegacy.HardRock

/-- `GameMods::rx` (`impl_has_mod!`): legacy-representable. -/
def GameMods.rx : GameMods → Bool
  | .Lazer mods => GameModsLazer.contains_intermode mods .Relax
  | .Intermode mods => GameModsIntermode.contains mods .Relax
  | .Legacy mods => mods.contains GameModsLegacy.Relax

/-- `GameMods::fl` (`impl_has_mod!`): legacy-representable. -/
def GameMods.fl : GameMods → Bool
  | .Lazer mods => GameModsLazer.contains_intermode mods .Flashlight
  | .Intermode mods => GameModsIntermode.contains mods .Flashlight
  | .Legacy mods => mods.contains GameModsLegacy.Flashlight

/-- `GameMods::so` (`impl_has_mod!`): legacy-representable. -/
def GameMods.so : GameMods → Bool
  | .Lazer mods => GameModsLazer.contains_intermode mods .SpunOut
  | .Intermode mods => GameModsIntermode.contains mods .SpunOut
  | .Legacy mods => mods.contains GameModsLegacy.SpunOut

/-- `GameMods::ap` (`impl_has_mod!`): legacy-representable. -/
def GameMods.ap : GameMods → Bool
  | .Lazer mods => GameModsLazer.contains_intermode mods .Autopilot
  | .Intermode mods => GameModsIntermode.contains mods .Autopilot
  | .Legacy mods => mods.contains GameModsLegacy.Autopilot

/-- `GameMods::bl` (`impl_has_mod!`): modern-only, legacy reports `false`. -/
def GameMods.bl : GameMods → Bool
  | .Lazer mods => GameModsLazer.contains_intermode mods .Blinds
  | .Intermode mods => GameModsIntermode.contains mods .Blinds
  | .Legacy _ => false

/-- `GameMods::cl` (`impl_has_mod!`): modern-only, legacy reports `false`. -/
def GameMods.cl : GameMods → Bool
  | .Lazer mods => GameModsLazer.contains_intermode mods .Classic
  | .Intermode mods => GameModsIntermode.contains mods .Classic
  | .Legacy _ => false

/-- `GameMods::invert` (`impl_has_mod!`): modern-only, legacy reports
`false`. -/
def GameMods.invert : GameMods → Bool
  | .Lazer mods => GameModsLazer.contains_intermode mods .Invert
  | .Intermode mods => GameModsIntermode.contains mods .Invert
  | .Legacy _ => false

/-- `GameMods::ho` (`impl_has_mod!`): modern-only, legacy reports `false`. -/
def GameMods.ho : GameMods → Bool
  | .Lazer mods => GameModsLazer.contains_intermode mods .HoldOff
  | .Intermode mods => GameModsIntermode.contains mods .HoldOff
  | .Legacy _ => false

/-- `GameMods::tc` (`impl_has_mod!`): modern-only, legacy reports `false`. -/
def GameMods.tc : GameMods → Bool
  | .Lazer mods => GameModsLazer.contains_intermode mods .Traceable
  | .Intermode mods => GameModsIntermode.contains mods .Traceable
  | .Legacy _ => false

/-- `GameMods::od_ar_hp_multiplier` (`src/model/mods.rs:82`). -/
def GameMods.od_ar_hp_multiplier (m : GameMods) : Rat :=
  if m.hr then
    1.4
  else if m.ez then
    0.5
  else
    1.0

/-- The inner `custom_hardrock_offsets` helper of `GameMods::hardrock_offsets`
(`src/model/mods.rs:94`). -/
def custom_hardrock_offsets : GameMods → Option Bool
  | .Lazer mods =>
    mods.findSome? fun gamemod =>
      match gamemod.id, gamemod.mode with
      | .DifficultyAdjust, .Catch => gamemod.hard_rock_offsets
      | _, _ => none
  | .Intermode _ => none
  | .Legacy _ => none

/-- `GameMods::hardrock_offsets` (`src/model/mods.rs:93`). -/
def GameMods.hardrock_offsets (m : GameMods) : Bool :=
  (custom_hardrock_offsets m).getD m.hr

/-- `GameMods::no_slider_head_acc` (`src/model/mods.rs:110`).  The lazer
branch matches only the osu! `Classic` mod (`GameMod::ClassicOsu`). -/
def GameMods.no_slider_head_acc (m : GameMods) (lazer : Bool) : Bool :=
  match m with
  | .Lazer mods =>
    (mods.findSome? fun g =>
      match g.id, g.mode with
      | .Classic, .Osu => some (g.no_slider_head_accuracy.getD true)
      | _, _ => none).getD (!lazer)
  | .Intermode mods => GameModsIntermode.contains mods .Classic || !lazer
  | .Legacy _ => !lazer

/-- `GameMods::reflection` (`src/model/mods.rs:124`). -/
def GameMods.reflection : GameMods → Reflection
  | .Lazer mods =>
    (mods.findSome? fun m =>
      match m.id, m.mode with
      | .HardRock, .Osu => some Reflection.Vertical
      | .Mirror, .Osu =>
        match m.reflection with
        | none => some Reflection.Horizontal
        | some "1" => some Reflection.Vertical
        | some "2" => some Reflection.Both
        | some _ => some Reflection.None
      | .Mirror, .Catch => some Reflection.Horizontal
      | _, _ => none).getD Reflection.None
  | .Intermode mods =>
    if GameModsIntermode.contains mods .HardRock then Reflection.Vertical else Reflection.None
  | .Legacy mods =>
    if mods.contains GameModsLegacy.HardRock then Reflection.Vertical else Reflection.None

/-- `GameMods::mania_keys` (`src/model/mods.rs:157`). -/
def GameMods.mania_keys : GameMods → Option Rat
  | .Lazer mods =>
    if GameModsLazer.contains_intermode mods .OneKey then some 1.0
    else if GameModsLazer.contains_intermode mods .TwoKeys then some 2.0
    else if GameModsLazer.contains_intermode mods .ThreeKeys then some 3.0
    else if GameModsLazer.contains_intermode mods .FourKeys then some 4.0
    else if GameModsLazer.contains_intermode mods .FiveKeys then some 5.0
    else if GameModsLazer.contains_intermode mods .SixKeys then some 6.0
    else if GameModsLazer.contains_intermode mods .SevenKeys then some 7.0
    else if GameModsLazer.contains_intermode mods .EightKeys then some 8.0
    else if GameModsLazer.contains_intermode mods .NineKeys then some 9.0
    else if GameModsLazer.contains_intermode mods .TenKeys then some 10.0
    else none
  | .Intermode mods =>
    if GameModsIntermode.contains mods .OneKey then some 1.0
    else if GameModsIntermode.contains mods .TwoKeys then some 2.0
    else if GameModsIntermode.contains mods .ThreeKeys then some 3.0
    else if GameModsIntermode.contains mods .FourKeys then some 4.0
    else if GameModsIntermode.contains mods .FiveKeys then some 5.0
    else if GameModsIntermode.contains mods .SixKeys then some 6.0
    else if GameModsIntermode.contains mods .SevenKeys then some 7.0
    else if GameModsIntermode.contains mods .EightKeys then some 8.0
    else if GameModsIntermode.contains mods .NineKeys then some 9.0
    else if GameModsIntermode.contains mods .TenKeys then some 10.0
    else none
  | .Legacy mods =>
    if mods.contains GameModsLegacy.Key1 then some 1.0
    else if mods.contains GameModsLegacy.Key2 then some 2.0
    else if mods.contains GameModsLegacy.Key3 then some 3.0
    else if mods.contains GameModsLegacy.Key4 then some 4.0
    else if mods.contains GameModsLegacy.Key5 then some 5.0
    else if mods.contains GameModsLegacy.Key6 then some 6.0
    else if mods.contains GameModsLegacy.Key7 then some 7.0
    else if mods.contains GameModsLegacy.Key8 then some 8.0
    else if mods.contains GameModsLegacy.Key9 then some 9.0
    else none

/-- `GameMods::scroll_speed` (`src/model/mods.rs:235`). -/
def GameMods.scroll_speed : GameMods → Option Rat
  | .Lazer mods =>
    (mods.findSome? fun m =>
      match m.id, m.mode with
      | .DifficultyAdjust, .Taiko => some m.scroll_speed
      | _, _ => none).join
  | .Intermode _ => none
  | .Legacy _ => none

/-- Rust's `as i32` cast of an `f64` seed: truncation toward zero, saturating
at the `i32` bounds. -/
def f64_as_i32 (r : Rat) : Int :=
  max (-2147483648) (min 2147483647 (if r < 0 then Rat.ceil r else Rat.floor r))

/-- `GameMods::random_seed` (`src/model/mods.rs:246`).  `RandomOsu` is
deliberately not matched by the source. -/
def GameMods.random_seed : GameMods → Option Int
  | .Lazer mods =>
    (mods.findSome? fun m =>
      match m.id, m.mode with
      | .Random, .Taiko => m.seed
      | .Random, .Mania => m.seed
      | _, _ => none).map f64_as_i32
  | .Intermode _ => none
  | .Legacy _ => none

/-- `GameMods::ar` (`impl_map_attr!`: `approach_rate`, modes Osu and
Catch). -/
def GameMods.ar : GameMods → Option Rat
  | .Lazer mods =>
    mods.findSome? fun gamemod =>
      match gamemod.id, gamemod.mode with
      | .DifficultyAdjust, .Osu => gamemod.approach_rate
      | .DifficultyAdjust, .Catch => gamemod.approach_rate
      | _, _ => none
  | .Intermode _ => none
  | .Legacy _ => none

/-- `GameMods::cs` (`impl_map_attr!`: `circle_size`, modes Osu and Catch). -/
def GameMods.cs : GameMods → Option Rat
  | .Lazer mods =>
    mods.findSome? fun gamemod =>
      match gamemod.id, gamemod.mode with
      | .DifficultyAdjust, .Osu => gamemod.circle_size
      | .DifficultyAdjust, .Catch => gamemod.circle_size
      | _, _ => none
  | .Intermode _ => none
  | .Legacy _ => none

/-- `GameMods::hp` (`impl_map_attr!`: `drain_rate`, all four modes). -/
def GameMods.hp : GameMods → Option Rat
  | .Lazer mods =>
    mods.findSome? fun gamemod =>
      match gamemod.id, gamemod.mode with
      | .DifficultyAdjust, _ => gamemod.drain_rate
      | _, _ => none
  | .Intermode _ => none
  | .Legacy _ => none

/-- `GameMods::od` (`impl_map_attr!`: `overall_difficulty`, all four
modes). -/
def GameMods.od : GameMods → Option Rat
  | .Lazer mods =>
    mods.findSome? fun gamemod =>
      match gamemod.id, gamemod.mode with
      | .DifficultyAdjust, _ => gamemod.overall_difficulty
      | _, _ => none
  | .Intermode _ => none
  | .Legacy _ => none

/-- `impl From<GameModsLazer> for GameMods`: wrap directly. -/
def GameMods.fromLazer (mods : List GameMod) : GameMods :=
  .Lazer mods

/-- `impl From<GameModsIntermode> for GameMods`: wrap directly (owned set). -/
def GameMods.fromIntermode (mods : List GameModIntermode) : GameMods :=
  .Intermode mods

/-- `impl From<GameModsLegacy> for GameMods`: wrap directly. -/
def GameMods.fromLegacy (mods : GameModsLegacy) : GameMods :=
  .Legacy mods

/-- `impl From<u32> for GameMods`: decode the raw bitmask, then wrap. -/
def GameMods.fromBits (bits : Nat) : GameMods :=
  GameMods.fromLegacy (GameModsLegacy.from_bits bits)

/-- `impl From<&GameModsIntermode> for GameMods`
(`src/model/mods.rs:363`): lossless downgrade when every identity is
legacy-representable, otherwise clone and wrap the intermode set. -/
def GameMods.fromIntermodeRef (mods : List GameModIntermode) : GameMods :=
  match GameModsIntermode.checked_bits mods with
  | some bits => GameMods.fromBits bits
  | none => GameMods.fromIntermode mods

/-! ## Specification-side definitions

The following definitions restate, in the claims' own vocabulary, what a
query is supposed to compute; the theorems below relate them to the
embedded source functions. -/

/-- The claims' per-entry "usable rate" for the lazer `clock_rate` scan: the
explicit configured rate of a rate-affecting mod when present, nothing
otherwise (so the scan keeps going), and nothing for every other identity. -/
def usable_rate (m : GameMod) : Option Rat :=
  match m.intermode with
  | .DoubleTime => m.clock_rate
  | .HalfTime => m.clock_rate
  | .Nightcore => m.clock_rate
  | .Daycore => m.clock_rate
  | _ => none

/-- The claims' per-entry reflection decision for the lazer `reflection`
scan: an osu! Hard-Rock mod decides `Vertical`, an osu! Mirror mod decides
according to its `reflection` parameter (absent parameter → `Horizontal`,
`"1"` → `Vertical`, `"2"` → `Both`, anything else → `None`), a catch Mirror
mod decides `Horizontal`, and every other entry does not decide. -/
def reflection_decision (m : GameMod) : Option Reflection :=
  match m.id, m.mode with
  | .HardRock, .Osu => some Reflection.Vertical
  | .Mirror, .Osu =>
    match m.reflection with
    | none => some Reflection.Horizontal
    | some "1" => some Reflection.Vertical
    | some "2" => some Reflection.Both
    | some _ => some Reflection.None
  | .Mirror, .Catch => some Reflection.Horizontal
  | _, _ => none

/-- Whether a lazer entry is the osu! `Classic` mod
(`GameMod::ClassicOsu`) — the only entry `no_slider_head_acc` reads. -/
def is_classic_osu (m : GameMod) : Bool :=
  decide (m.id = GameModIntermode.Classic) && decide (m.mode = Mode.Osu)

/-- The "N keys" identity ladder of `mania_keys`, indexed by the key count
(1–10). -/
def key_identity : Nat → GameModIntermode
  | 1 => .OneKey
  | 2 => .TwoKeys
  | 3 => .ThreeKeys
  | 4 => .FourKeys
  | 5 => .FiveKeys
  | 6 => .SixKeys
  | 7 => .SevenKeys
  | 8 => .EightKeys
  | 9 => .NineKeys
  | 10 => .TenKeys
  | _ => .Other 0

/-- The legacy bit flag of the "N keys" identity, `none` for key counts the
legacy layout cannot express (10 and out-of-range indices). -/
def key_flag : Nat → Option Nat
  | 1 => some GameModsLegacy.Key1
  | 2 => some GameModsLegacy.Key2
  | 3 => some GameModsLegacy.Key3
  | 4 => some GameModsLegacy.Key4
  | 5 => some GameModsLegacy.Key5
  | 6 => some GameModsLegacy.Key6
  | 7 => some GameModsLegacy.Key7
  | 8 => some GameModsLegacy.Key8
  | 9 => some GameModsLegacy.Key9
  | _ => none

/-- Whether the given mod set carries the "N keys" identity, under each
representation's own lookup. -/
def GameMods.has_key_mod (g : GameMods) (n : Nat) : Bool :=
  match g with
  | .Lazer mods => GameModsLazer.contains_intermode mods (key_identity n)
  | .Intermode mods => GameModsIntermode.contains mods (key_identity n)
  | .Legacy mods =>
    match key_flag n with
    | some flag => mods.contains flag
    | none => false

/-- A lazer `Nightcore` mod carrying an explicit configured rate of 13/10. -/
def nightcore_custom : GameMod :=
  ⟨.Nightcore, .Osu, some (13 / 10), none, none, none, none, none, none, none, none, none⟩

/-- A lazer osu! `Mirror` mod whose `reflection` parameter selects "both
directions" (`"2"`). -/
def mirror_both : GameMod :=
  ⟨.Mirror, .Osu, none, none, some "2", none, none, none, none, none, none, none⟩

/-- Two mod sets agree on every query of §4 of the spec: the rate and
multiplier queries, every override query, and every presence predicate. -/
def QueryAgree (g1 g2 : GameMods) : Prop :=
  g1.clock_rate = g2.clock_rate ∧
  g1.od_ar_hp_multiplier = g2.od_ar_hp_multiplier ∧
  g1.ar = g2.ar ∧
  g1.cs = g2.cs ∧
  g1.hp = g2.hp ∧
  g1.od = g2.od ∧
  g1.scroll_speed = g2.scroll_speed ∧
  g1.random_seed = g2.random_seed ∧
  g1.hardrock_offsets = g2.hardrock_offsets ∧
  (∀ lazer, g1.no_slider_head_acc lazer = g2.no_slider_head_acc lazer) ∧
  g1.reflection = g2.reflection ∧
  g1.mania_keys = g2.mania_keys ∧
  g1.nf = g2.nf ∧
  g1.ez = g2.ez ∧
  g1.td = g2.td ∧
  g1.hd = g2.hd ∧
  g1.hr = g2.hr ∧
  g1.rx = g2.rx ∧
  g1.fl = g2.fl ∧
  g1.so = g2.so ∧
  g1.ap = g2.ap ∧
  g1.bl = g2.bl ∧
  g1.cl = g2.cl ∧
  g1.invert = g2.invert ∧
  g1.ho = g2.ho ∧
  g1.tc = g2.tc

/-! ## Helper lemmas -/

/-- The lazer branch of `reflection` is the first-match scan of
`reflection_decision`. -/
theorem reflection_lazer_eq (mods : List GameMod) :
    (GameMods.Lazer mods).reflection =
      (mods.findSome? reflection_decision).getD Reflection.None :=
  rfl

/-- Every member of a set whose `checked_bits` succeeds is
legacy-representable. -/
theorem checked_bits_mem {s : List GameModIntermode} {b : Nat}
    (h : GameModsIntermode.checked_bits s = some b) {m : GameModIntermode} (hm : m ∈ s) :
    ∃ v, m.bits = some v := by
  induction s generalizing b with
  | nil => cases hm
  | cons a t ih =>
    rcases ha : a.bits with _ | v
    · simp [GameModsIntermode.checked_bits, ha] at h
    rcases ht : GameModsIntermode.checked_bits t with _ | bt
    · simp [GameModsIntermode.checked_bits, ha, ht] at h
    rcases List.mem_cons.mp hm with rfl | hm
    · exact ⟨v, ha⟩
    · exact ih ht hm

/-- A set whose `checked_bits` succeeds contains no identity without legacy
bits. -/
theorem checked_bits_not_mem {s : List GameModIntermode} {b : Nat}
    (h : GameModsIntermode.checked_bits s = some b) {m : GameModIntermode}
    (hm : m.bits = none) : m ∉ s := by
  intro hmem
  obtain ⟨v, hv⟩ := checked_bits_mem h hmem
  rw [hm] at hv
  cases hv

/-- A bit of a successful `checked_bits` result is set exactly when some
member's legacy bits have that bit set. -/
theorem checked_bits_testBit {s : List GameModIntermode} {b : Nat}
    (h : GameModsIntermode.checked_bits s = some b) (k : Nat) :
    (b.testBit k = true ↔ ∃ m ∈ s, ∃ v, m.bits = some v ∧ v.testBit k = true) := by
  induction s generalizing b with
  | nil =>
    simp only [GameModsIntermode.checked_bits, Option.some.injEq] at h
    subst h
    simp
  | cons a t ih =>
    rcases ha : a.bits with _ | v
    · simp [GameModsIntermode.checked_bits, ha] at h
    rcases ht : GameModsIntermode.checked_bits t with _ | bt
    · simp [GameModsIntermode.checked_bits, ha, ht] at h
    have hb : b = v ||| bt := by
      simp only [GameModsIntermode.checked_bits, ha, ht, Option.some.injEq] at h
      exact h.symm
    subst hb
    rw [Nat.testBit_or]
    simp only [Bool.or_eq_true, ih ht, List.mem_cons]
    constructor
    · rintro (hv | ⟨m, hm, w, hw, hq⟩)
      · exact ⟨a, Or.inl rfl, v, ha, hv⟩
      · exact ⟨m, Or.inr hm, w, hw, hq⟩
    · rintro ⟨m, rfl | hm, w, hw, hq⟩
      · rw [ha] at hw
        cases hw
        exact Or.inl hq
      · exact Or.inr ⟨m, hm, w, hw, hq⟩

/-- The legacy bits of every identity fit in 31 bits. -/
theorem bits_lt (m : GameModIntermode) (v : Nat) (h : m.bits = some v) : v < 2 ^ 31 := by
  cases m <;> simp only [GameModIntermode.bits] at h <;>
    first
      | (injection h with h; subst h; decide)
      | exact absurd h (by simp)

/-- A successful `checked_bits` result fits in 31 bits. -/
theorem checked_bits_lt {s : List GameModIntermode} {b : Nat}
    (h : GameModsIntermode.checked_bits s = some b) : b < 2 ^ 31 := by
  induction s generalizing b with
  | nil =>
    simp only [GameModsIntermode.checked_bits, Option.some.injEq] at h
    subst h
    decide
  | cons a t ih =>
    rcases ha : a.bits with _ | v
    · simp [GameModsIntermode.checked_bits, ha] at h
    rcases ht : GameModsIntermode.checked_bits t with _ | bt
    · simp [GameModsIntermode.checked_bits, ha, ht] at h
    have hb : b = v ||| bt := by
      simp only [GameModsIntermode.checked_bits, ha, ht, Option.some.injEq] at h
      exact h.symm
    subst hb
    exact Nat.or_lt_two_pow (bits_lt a v ha) (ih ht)

/-- Bit 0 of an identity's legacy bits is set exactly for `NoFail`. -/
theorem bits_bit0 (m : GameModIntermode) (v : Nat) (h : m.bits = some v) :
    (v.testBit 0 = true ↔ m = .NoFail) := by
  cases m <;> simp only [GameModIntermode.bits] at h <;>
    first
      | (injection h with h; subst h; decide)
      | exact absurd h (by simp)

/-- Bit 1 of an identity's legacy bits is set exactly for `Easy`. -/
theorem bits_bit1 (m : GameModIntermode) (v : Nat) (h : m.bits = some v) :
    (v.testBit 1 = true ↔ m = .Easy) := by
  cases m <;> simp only [GameModIntermode.bits] at h <;>
    first
      | (injection h with h; subst h; decide)
      | exact absurd h (by simp)

/-- Bit 2 of an identity's legacy bits is set exactly for `TouchDevice`. -/
theorem bits_bit2 (m : GameModIntermode) (v : Nat) (h : m.bits = some v) :
    (v.testBit 2 = true ↔ m = .TouchDevice) := by
  cases m <;> simp only [GameModIntermode.bits] at h <;>
    first
      | (injection h with h; subst h; decide)
      | exact absurd h (by simp)

/-- Bit 3 of an identity's legacy bits is set exactly for `Hidden`. -/
theorem bits_bit3 (m : GameModIntermode) (v : Nat) (h : m.bits = some v) :
    (v.testBit 3 = true ↔ m = .Hidden) := by
  cases m <;> simp only [GameModIntermode.bits] at h <;>
    first
      | (injection h with h; subst h; decide)
      | exact absurd h (by simp)

/-- Bit 4 of an identity's legacy bits is set exactly for `HardRock`. -/
theorem bits_bit4 (m : GameModIntermode) (v : Nat) (h : m.bits = some v) :
    (v.testBit 4 = true ↔ m = .HardRock) := by
  cases m <;> simp only [GameModIntermode.bits] at h <;>
    first
      | (injection h with h; subst h; decide)
      | exact absurd h (by simp)

/-- Bit 6 of an identity's legacy bits is set exactly for `DoubleTime` and
`Nightcore` (whose legacy pattern includes the `DoubleTime` bit). -/
theorem bits_bit6 (m : GameModIntermode) (v : Nat) (h : m.bits = some v) :
    (v.testBit 6 = true ↔ (m = .DoubleTime ∨ m = .Nightcore)) := by
  cases m <;> simp only [GameModIntermode.bits] at h <;>
    first
      | (injection h with h; subst h; decide)
      | exact absurd h (by simp)

/-- Bit 7 of an identity's legacy bits is set exactly for `Relax`. -/
theorem bits_bit7 (m : GameModIntermode) (v : Nat) (h : m.bits = some v) :
    (v.testBit 7 = true ↔ m = .Relax) := by
  cases m <;> simp only [GameModIntermode.bits] at h <;>
    first
      | (injection h with h; subst h; decide)
      | exact absurd h (by simp)

/-- Bit 8 of an identity's legacy bits is set exactly for `HalfTime`. -/
theorem bits_bit8 (m : GameModIntermode) (v : Nat) (h : m.bits = some v) :
    (v.testBit 8 = true ↔ m = .HalfTime) := by
  cases m <;> simp only [GameModIntermode.bits] at h <;>
    first
      | (injection h with h; subst h; decide)
      | exact absurd h (by simp)

/-- Bit 10 of an identity's legacy bits is set exactly for `Flashlight`. -/
theorem bits_bit10 (m : GameModIntermode) (v : Nat) (h : m.bits = some v) :
    (v.testBit 10 = true ↔ m = .Flashlight) := by
  cases m <;> simp only [GameModIntermode.bits] at h <;>
    first
      | (injection h with h; subst h; decide)
      | exact absurd h (by simp)

/-- Bit 12 of an identity's legacy bits is set exactly for `SpunOut`. -/
theorem bits_bit12 (m : GameModIntermode) (v : Nat) (h : m.bits = some v) :
    (v.testBit 12 = true ↔ m = .SpunOut) := by
  cases m <;> simp only [GameModIntermode.bits] at h <;>
    first
      | (injection h with h; subst h; decide)
      | exact absurd h (by simp)

/-- Bit 13 of an identity's legacy bits is set exactly for `Autopilot`. -/
theorem bits_bit13 (m : GameModIntermode) (v : Nat) (h : m.bits = some v) :
    (v.testBit 13 = true ↔ m = .Autopilot) := by
  cases m <;> simp only [GameModIntermode.bits] at h <;>
    first
      | (injection h with h; subst h; decide)
      | exact absurd h (by simp)

/-- Bit 15 of an identity's legacy bits is set exactly for `FourKeys`. -/
theorem bits_bit15 (m : GameModIntermode) (v : Nat) (h : m.bits = some v) :
    (v.testBit 15 = true ↔ m = .FourKeys) := by
  cases m <;> simp only [GameModIntermode.bits] at h <;>
    first
      | (injection h with h; subst h; decide)
      | exact absurd h (by simp)

/-- Bit 16 of an identity's legacy bits is set exactly for `FiveKeys`. -/
theorem bits_bit16 (m : GameModIntermode) (v : Nat) (h : m.bits = some v) :
    (v.testBit 16 = true ↔ m = .FiveKeys) := by
  cases m <;> simp only [GameModIntermode.bits] at h <;>
    first
      | (injection h with h; subst h; decide)
      | exact absurd h (by simp)

/-- Bit 17 of an identity's legacy bits is set exactly for `SixKeys`. -/
theorem bits_bit17 (m : GameModIntermode) (v : Nat) (h : m.bits = some v) :
    (v.testBit 17 = true ↔ m = .SixKeys) := by
  cases m <;> simp only [GameModIntermode.bits] at h <;>
    first
      | (injection h with h; subst h; decide)
      | exact absurd h (by simp)

/-- Bit 18 of an identity's legacy bits is set exactly for `SevenKeys`. -/
theorem bits_bit18 (m : GameModIntermode) (v : Nat) (h : m.bits = some v) :
    (v.testBit 18 = true ↔ m = .SevenKeys) := by
  cases m <;> simp only [GameModIntermode.bits] at h <;>
    first
      | (injection h with h; subst h; decide)
      | exact absurd h (by simp)

/-- Bit 19 of an identity's legacy bits is set exactly for `EightKeys`. -/
theorem bits_bit19 (m : GameModIntermode) (v : Nat) (h : m.bits = some v) :
    (v.testBit 19 = true ↔ m = .EightKeys) := by
  cases m <;> simp only [GameModIntermode.bits] at h <;>
    first
      | (injection h with h; subst h; decide)
      | exact absurd h (by simp)

/-- Bit 24 of an identity's legacy bits is set exactly for `NineKeys`. -/
theorem bits_bit24 (m : GameModIntermode) (v : Nat) (h : m.bits = some v) :
    (v.testBit 24 = true ↔ m = .NineKeys) := by
  cases m <;> simp only [GameModIntermode.bits] at h <;>
    first
      | (injection h with h; subst h; decide)
      | exact absurd h (by simp)

/-- Bit 26 of an identity's legacy bits is set exactly for `OneKey`. -/
theorem bits_bit26 (m : GameModIntermode) (v : Nat) (h : m.bits = some v) :
    (v.testBit 26 = true ↔ m = .OneKey) := by
  cases m <;> simp only [GameModIntermode.bits] at h <;>
    first
      | (injection h with h; subst h; decide)
      | exact absurd h (by simp)

/-- Bit 27 of an identity's legacy bits is set exactly for `ThreeKeys`. -/
theorem bits_bit27 (m : GameModIntermode) (v : Nat) (h : m.bits = some v) :
    (v.testBit 27 = true ↔ m = .ThreeKeys) := by
  cases m <;> simp only [GameModIntermode.bits] at h <;>
    first
      | (injection h with h; subst h; decide)
      | exact absurd h (by simp)

/-- Bit 28 of an identity's legacy bits is set exactly for `TwoKeys`. -/
theorem bits_bit28 (m : GameModIntermode) (v : Nat) (h : m.bits = some v) :
    (v.testBit 28 = true ↔ m = .TwoKeys) := by
  cases m <;> simp only [GameModIntermode.bits] at h <;>
    first
      | (injection h with h; subst h; decide)
      | exact absurd h (by simp)

/-- Containment of a single-bit flag is exactly a `testBit`. -/
theorem contains_two_pow (b k : Nat) :
    (GameModsLegacy.contains ⟨b⟩ (2 ^ k)) = b.testBit k := by
  simp only [GameModsLegacy.contains, Nat.and_two_pow]
  cases h : b.testBit k <;> simp [h]
  · intro hh
    exact absurd hh.symm (by positivity)

/-- After a successful downgrade, a single-bit legacy flag is contained
exactly when its (unique) contributing identity is a member of the
intermode set. -/
theorem legacy_contains_eq_mem {s : List GameModIntermode} {b : Nat}
    (h : GameModsIntermode.checked_bits s = some b) (k : Nat) (id : GameModIntermode)
    (hk : ∀ m v, GameModIntermode.bits m = some v → (v.testBit k = true ↔ m = id)) :
    GameModsLegacy.contains ⟨b⟩ (2 ^ k) = GameModsIntermode.contains s id := by
  rw [contains_two_pow, GameModsIntermode.contains, Bool.eq_iff_iff]
  simp only [decide_eq_true_eq]
  rw [checked_bits_testBit h k]
  constructor
  · rintro ⟨m, hm, v, hv, ht⟩
    rwa [(hk m v hv).mp ht] at hm
  · intro hid
    obtain ⟨v, hv⟩ := checked_bits_mem h hid
    exact ⟨id, hid, v, hv, (hk id v hv).mpr rfl⟩

/-- Variant of `legacy_contains_eq_mem` for a bit with two contributing
identities (the `DoubleTime` bit, also set by `Nightcore`). -/
theorem legacy_contains_eq_mem2 {s : List GameModIntermode} {b : Nat}
    (h : GameModsIntermode.checked_bits s = some b) (k : Nat)
    (id1 id2 : GameModIntermode)
    (hk : ∀ m v, GameModIntermode.bits m = some v →
      (v.testBit k = true ↔ (m = id1 ∨ m = id2))) :
    GameModsLegacy.contains ⟨b⟩ (2 ^ k) =
      (GameModsIntermode.contains s id1 || GameModsIntermode.contains s id2) := by
  rw [contains_two_pow, GameModsIntermode.contains, GameModsIntermode.contains,
    Bool.eq_iff_iff]
  simp only [Bool.or_eq_true, decide_eq_true_eq]
  rw [checked_bits_testBit h k]
  constructor
  · rintro ⟨m, hm, v, hv, ht⟩
    rcases (hk m v hv).mp ht with rfl | rfl
    · exact Or.inl hm
    · exact Or.inr hm
  · rintro (hid | hid)
    · obtain ⟨v, hv⟩ := checked_bits_mem h hid
      exact ⟨id1, hid, v, hv, (hk id1 v hv).mpr (Or.inl rfl)⟩
    · obtain ⟨v, hv⟩ := checked_bits_mem h hid
      exact ⟨id2, hid, v, hv, (hk id2 v hv).mpr (Or.inr rfl)⟩

/-- After a successful downgrade, the intermode set reports `false` for any
identity without legacy bits. -/
theorem contains_eq_false_of_no_bits {s : List GameModIntermode} {b : Nat}
    (h : GameModsIntermode.checked_bits s = some b) {m : GameModIntermode}
    (hm : m.bits = none) : GameModsIntermode.contains s m = false := by
  simp [GameModsIntermode.contains, checked_bits_not_mem h hm]

/-! ## Claim theorems -/

/-- C1: for every Modern (lazer) mod set, `clock_rate` scans the mods in
collection order and returns the value of the first usable rate-affecting
entry (for `DoubleTime`/`HalfTime`/`Nightcore`/`Daycore` the mod's explicit
configured rate when present, otherwise the scan continues; every other
identity is skipped), and returns 1.0 when no matching mod yields a usable
rate. -/
theorem clock_rate_lazer_scan :
    (GameMods.Lazer []).clock_rate = 1.0 ∧
    (∀ (m : GameMod) (r : Rat) (rest : List GameMod), usable_rate m = some r →
      (GameMods.Lazer (m :: rest)).clock_rate = r) ∧
    (∀ (m : GameMod) (rest : List GameMod), usable_rate m = none →
      (GameMods.Lazer (m :: rest)).clock_rate = (GameMods.Lazer rest).clock_rate) := by
  refine ⟨rfl, ?_, ?_⟩
  · intro m r rest h
    obtain ⟨id, mode, sc, f1, f2, f3, f4, f5, f6, f7, f8, f9⟩ := m
    cases id <;>
      simp_all [usable_rate, GameMod.intermode, GameMod.clock_rate, GameMods.clock_rate,
        List.findSome?_cons] <;>
      · rw [mul_comm]
        exact div_mul_cancel₀ r (by norm_num)
  · intro m rest h
    obtain ⟨id, mode, sc, f1, f2, f3, f4, f5, f6, f7, f8, f9⟩ := m
    cases id <;>
      simp_all [usable_rate, GameMod.intermode, GameMod.clock_rate, GameMods.clock_rate,
        List.findSome?_cons]

/-- Witness for C1: a `Nightcore` mod with explicit configured rate 13/10 is
usable and determines the clock rate 13/10. -/
theorem clock_rate_lazer_scan_witness :
    usable_rate nightcore_custom = some (13 / 10) ∧
    (GameMods.Lazer [nightcore_custom]).clock_rate = 13 / 10 :=
  ⟨rfl, clock_rate_lazer_scan.2.1 nightcore_custom (13 / 10) [] rfl⟩

/-- C2: for every Intermediate set whose identities are all
legacy-representable (`checked_bits` succeeds with pattern `b`),
construction from a reference yields the Legacy variant with the equivalent
bit pattern, the same value as construction from the raw bitmask `b`, and a
value that agrees with the one constructed from the owned Intermediate set
on every query of §4. -/
theorem intermode_ref_lossless_downgrade (s : List GameModIntermode) (b : Nat)
    (h : GameModsIntermode.checked_bits s = some b) :
    GameMods.fromIntermodeRef s = GameMods.Legacy ⟨b⟩ ∧
    GameMods.fromIntermodeRef s = GameMods.fromBits b ∧
    QueryAgree (GameMods.fromIntermode s) (GameMods.fromIntermodeRef s) := by
  have hfb : GameModsLegacy.from_bits b = ⟨b⟩ := by
    have e : (2147483647 : Nat) = 2 ^ 31 - 1 := by norm_num
    simp only [GameModsLegacy.from_bits, e,
      Nat.and_pow_two_sub_one_of_lt_two_pow (checked_bits_lt h)]
  have href : GameMods.fromIntermodeRef s = GameMods.Legacy ⟨b⟩ := by
    simp [GameMods.fromIntermodeRef, h, GameMods.fromBits, GameMods.fromLegacy, hfb]
  refine ⟨href, by rw [href, GameMods.fromBits, GameMods.fromLegacy, hfb], ?_⟩
  rw [GameMods.fromIntermode, href]
  have hnf : GameModsLegacy.contains ⟨b⟩ GameModsLegacy.NoFail
      = GameModsIntermode.contains s .NoFail := by
    have e : GameModsLegacy.NoFail = 2 ^ 0 := by norm_num [GameModsLegacy.NoFail]
    rw [e]
    exact legacy_contains_eq_mem h 0 .NoFail bits_bit0
  have hez : GameModsLegacy.contains ⟨b⟩ GameModsLegacy.Easy
      = GameModsIntermode.contains s .Easy := by
    have e : GameModsLegacy.Easy = 2 ^ 1 := by norm_num [GameModsLegacy.Easy]
    rw [e]
    exact legacy_contains_eq_mem h 1 .Easy bits_bit1
  have htd : GameModsLegacy.contains ⟨b⟩ GameModsLegacy.TouchDevice
      = GameModsIntermode.contains s .TouchDevice := by
    have e : GameModsLegacy.TouchDevice = 2 ^ 2 := by norm_num [GameModsLegacy.TouchDevice]
    rw [e]
    exact legacy_contains_eq_mem h 2 .TouchDevice bits_bit2
  have hhd : GameModsLegacy.contains ⟨b⟩ GameModsLegacy.Hidden
      = GameModsIntermode.contains s .Hidden := by
    have e : GameModsLegacy.Hidden = 2 ^ 3 := by norm_num [GameModsLegacy.Hidden]
    rw [e]
    exact legacy_contains_eq_mem h 3 .Hidden bits_bit3
  have hhr : GameModsLegacy.contains ⟨b⟩ GameModsLegacy.HardRock
      = GameModsIntermode.contains s .HardRock := by
    have e : GameModsLegacy.HardRock = 2 ^ 4 := by norm_num [GameModsLegacy.HardRock]
    rw [e]
    exact legacy_contains_eq_mem h 4 .HardRock bits_bit4
  have hrx : GameModsLegacy.contains ⟨b⟩ GameModsLegacy.Relax
      = GameModsIntermode.contains s .Relax := by
    have e : GameModsLegacy.Relax = 2 ^ 7 := by norm_num [GameModsLegacy.Relax]
    rw [e]
    exact legacy_contains_eq_mem h 7 .Relax bits_bit7
  have hfl : GameModsLegacy.contains ⟨b⟩ GameModsLegacy.Flashlight
      = GameModsIntermode.contains s .Flashlight := by
    have e : GameModsLegacy.Flashlight = 2 ^ 10 := by norm_num [GameModsLegacy.Flashlight]
    rw [e]
    exact legacy_contains_eq_mem h 10 .Flashlight bits_bit10
  have hso : GameModsLegacy.contains ⟨b⟩ GameModsLegacy.SpunOut
      = GameModsIntermode.contains s .SpunOut := by
    have e : GameModsLegacy.SpunOut = 2 ^ 12 := by norm_num [GameModsLegacy.SpunOut]
    rw [e]
    exact legacy_contains_eq_mem h 12 .SpunOut bits_bit12
  have hap : GameModsLegacy.contains ⟨b⟩ GameModsLegacy.Autopilot
      = GameModsIntermode.contains s .Autopilot := by
    have e : GameModsLegacy.Autopilot = 2 ^ 13 := by norm_num [GameModsLegacy.Autopilot]
    rw [e]
    exact legacy_contains_eq_mem h 13 .Autopilot bits_bit13
  have hdt : GameModsLegacy.contains ⟨b⟩ GameModsLegacy.DoubleTime
      = (GameModsIntermode.contains s .DoubleTime
        || GameModsIntermode.contains s .Nightcore) := by
    have e : GameModsLegacy.DoubleTime = 2 ^ 6 := by norm_num [GameModsLegacy.DoubleTime]
    rw [e]
    exact legacy_contains_eq_mem2 h 6 .DoubleTime .Nightcore bits_bit6
  have hht : GameModsLegacy.contains ⟨b⟩ GameModsLegacy.HalfTime
      = GameModsIntermode.contains s .HalfTime := by
    have e : GameModsLegacy.HalfTime = 2 ^ 8 := by norm_num [GameModsLegacy.HalfTime]
    rw [e]
    exact legacy_contains_eq_mem h 8 .HalfTime bits_bit8
  have hk1 : GameModsLegacy.contains ⟨b⟩ GameModsLegacy.Key1
      = GameModsIntermode.contains s .OneKey := by
    have e : GameModsLegacy.Key1 = 2 ^ 26 := by norm_num [GameModsLegacy.Key1]
    rw [e]
    exact legacy_contains_eq_mem h 26 .OneKey bits_bit26
  have hk2 : GameModsLegacy.contains ⟨b⟩ GameModsLegacy.Key2
      = GameModsIntermode.contains s .TwoKeys := by
    have e : GameModsLegacy.Key2 = 2 ^ 28 := by norm_num [GameModsLegacy.Key2]
    rw [e]
    exact legacy_contains_eq_mem h 28 .TwoKeys bits_bit28
  have hk3 : GameModsLegacy.contains ⟨b⟩ GameModsLegacy.Key3
      = GameModsIntermode.contains s .ThreeKeys := by
    have e : GameModsLegacy.Key3 = 2 ^ 27 := by norm_num [GameModsLegacy.Key3]
    rw [e]
    exact legacy_contains_eq_mem h 27 .ThreeKeys bits_bit27
  have hk4 : GameModsLegacy.contains ⟨b⟩ GameModsLegacy.Key4
      = GameModsIntermode.contains s .FourKeys := by
    have e : GameModsLegacy.Key4 = 2 ^ 15 := by norm_num [GameModsLegacy.Key4]
    rw [e]
    exact legacy_contains_eq_mem h 15 .FourKeys bits_bit15
  have hk5 : GameModsLegacy.contains ⟨b⟩ GameModsLegacy.Key5
      = GameModsIntermode.contains s .FiveKeys := by
    have e : GameModsLegacy.Key5 = 2 ^ 16 := by norm_num [GameModsLegacy.Key5]
    rw [e]
    exact legacy_contains_eq_mem h 16 .FiveKeys bits_bit16
  have hk6 : GameModsLegacy.contains ⟨b⟩ GameModsLegacy.Key6
      = GameModsIntermode.contains s .SixKeys := by
    have e : GameModsLegacy.Key6 = 2 ^ 17 := by norm_num [GameModsLegacy.Key6]
    rw [e]
    exact legacy_contains_eq_mem h 17 .SixKeys bits_bit17
  have hk7 : GameModsLegacy.contains ⟨b⟩ GameModsLegacy.Key7
      = GameModsIntermode.contains s .SevenKeys := by
    have e : GameModsLegacy.Key7 = 2 ^ 18 := by norm_num [GameModsLegacy.Key7]
    rw [e]
    exact legacy_contains_eq_mem h 18 .SevenKeys bits_bit18
  have hk8 : GameModsLegacy.contains ⟨b⟩ GameModsLegacy.Key8
      = GameModsIntermode.contains s .EightKeys := by
    have e : GameModsLegacy.Key8 = 2 ^ 19 := by norm_num [GameModsLegacy.Key8]
    rw [e]
    exact legacy_contains_eq_mem h 19 .EightKeys bits_bit19
  have hk9 : GameModsLegacy.contains ⟨b⟩ GameModsLegacy.Key9
      = GameModsIntermode.contains s .NineKeys := by
    have e : GameModsLegacy.Key9 = 2 ^ 24 := by norm_num [GameModsLegacy.Key9]
    rw [e]
    exact legacy_contains_eq_mem h 24 .NineKeys bits_bit24
  have hdc : GameModsIntermode.contains s .Daycore = false :=
    contains_eq_false_of_no_bits h rfl
  have h10 : GameModsIntermode.contains s .TenKeys = false :=
    contains_eq_false_of_no_bits h rfl
  have hbl : GameModsIntermode.contains s .Blinds = false :=
    contains_eq_false_of_no_bits h rfl
  have hcl : GameModsIntermode.contains s .Classic = false :=
    contains_eq_false_of_no_bits h rfl
  have hinv : GameModsIntermode.contains s .Invert = false :=
    contains_eq_false_of_no_bits h rfl
  have hho : GameModsIntermode.contains s .HoldOff = false :=
    contains_eq_false_of_no_bits h rfl
  have htc : GameModsIntermode.contains s .Traceable = false :=
    contains_eq_false_of_no_bits h rfl
  unfold QueryAgree
  refine ⟨?_, ?_, rfl, rfl, rfl, rfl, rfl, rfl, ?_, ?_, ?_, ?_, ?_, ?_, ?_, ?_, ?_, ?_,
    ?_, ?_, ?_, ?_, ?_, ?_, ?_, ?_⟩
  · simp only [GameMods.clock_rate, GameModsIntermode.legacy_clock_rate,
      GameModsLegacy.clock_rate, hdt, hht, hdc]
    simp
  · simp only [GameMods.od_ar_hp_multiplier, GameMods.hr, GameMods.ez, hhr, hez]
  · simp only [GameMods.hardrock_offsets, custom_hardrock_offsets, Option.getD_none,
      GameMods.hr, hhr]
  · intro lazer
    simp only [GameMods.no_slider_head_acc, hcl, Bool.false_or]
  · simp only [GameMods.reflection, hhr]
  · simp only [GameMods.mania_keys, hk1, hk2, hk3, hk4, hk5, hk6, hk7, hk8, hk9, h10]
    simp
  · exact hnf.symm
  · exact hez.symm
  · exact htd.symm
  · exact hhd.symm
  · exact hhr.symm
  · exact hrx.symm
  · exact hfl.symm
  · exact hso.symm
  · exact hap.symm
  · exact hbl
  · exact hcl
  · exact hinv
  · exact hho
  · exact htc

/-- Witness for C2: the set {HardRock, Hidden} downgrades to the legacy bit
pattern 24 and the two constructions agree, e.g. on `clock_rate`. -/
theorem intermode_ref_lossless_downgrade_witness :
    GameModsIntermode.checked_bits [.HardRock, .Hidden] = some 24 ∧
    GameMods.fromIntermodeRef [.HardRock, .Hidden] = GameMods.Legacy ⟨24⟩ ∧
    (GameMods.fromIntermode [.HardRock, .Hidden]).clock_rate =
      (GameMods.fromIntermodeRef [.HardRock, .Hidden]).clock_rate :=
  ⟨by decide,
   (intermode_ref_lossless_downgrade [.HardRock, .Hidden] 24 (by decide)).1,
   ((intermode_ref_lossless_downgrade [.HardRock, .Hidden] 24 (by decide)).2.2).1⟩

/-- C3: `reflection` is a first-match scan on Modern sets whose per-entry
decision maps an osu! Hard-Rock mod to `Vertical`, an osu! Mirror mod to the
value selected by its `reflection` parameter (no parameter → `Horizontal`,
`"1"` → `Vertical`, `"2"` (both directions) → `Both`, unrecognized →
`None`), and a catch Mirror mod to `Horizontal`; on Intermediate and Legacy
it is `Vertical` exactly when Hard-Rock is present; and it is `None` when no
mirror or Hard-Rock mod is active. -/
theorem reflection_spec :
    (∀ (m : GameMod) (r : Reflection) (rest : List GameMod),
      reflection_decision m = some r → (GameMods.Lazer (m :: rest)).reflection = r) ∧
    (∀ (m : GameMod) (rest : List GameMod), reflection_decision m = none →
      (GameMods.Lazer (m :: rest)).reflection = (GameMods.Lazer rest).reflection) ∧
    (∀ mods : List GameMod, (∀ x ∈ mods, reflection_decision x = none) →
      (GameMods.Lazer mods).reflection = Reflection.None) ∧
    (∀ m : GameMod, m.id = .HardRock → m.mode = .Osu →
      reflection_decision m = some Reflection.Vertical) ∧
    (∀ m : GameMod, m.id = .Mirror → m.mode = .Osu → m.reflection = none →
      reflection_decision m = some Reflection.Horizontal) ∧
    (∀ m : GameMod, m.id = .Mirror → m.mode = .Osu → m.reflection = some "1" →
      reflection_decision m = some Reflection.Vertical) ∧
    (∀ m : GameMod, m.id = .Mirror → m.mode = .Osu → m.reflection = some "2" →
      reflection_decision m = some Reflection.Both) ∧
    (∀ (m : GameMod) (s : String), m.id = .Mirror → m.mode = .Osu →
      m.reflection = some s → s ≠ "1" → s ≠ "2" →
      reflection_decision m = some Reflection.None) ∧
    (∀ m : GameMod, m.id = .Mirror → m.mode = .Catch →
      reflection_decision m = some Reflection.Horizontal) ∧
    (∀ s : List GameModIntermode, (GameMods.Intermode s).reflection =
      if GameModsIntermode.contains s .HardRock then Reflection.Vertical else Reflection.None) ∧
    (∀ L : GameModsLegacy, (GameMods.Legacy L).reflection =
      if L.contains GameModsLegacy.HardRock then Reflection.Vertical else Reflection.None) := by
  refine ⟨?_, ?_, ?_, ?_, ?_, ?_, ?_, ?_, ?_, fun s => rfl, fun L => rfl⟩
  · intro m r rest h
    rw [reflection_lazer_eq, List.findSome?_cons, h]
    rfl
  · intro m rest h
    rw [reflection_lazer_eq, reflection_lazer_eq, List.findSome?_cons, h]
  · intro mods h
    rw [reflection_lazer_eq, List.findSome?_eq_none_iff.mpr h]
    rfl
  · intro m h1 h2
    simp [reflection_decision, h1, h2]
  · intro m h1 h2 h3
    simp [reflection_decision, h1, h2, h3]
  · intro m h1 h2 h3
    simp [reflection_decision, h1, h2, h3]
  · intro m h1 h2 h3
    simp [reflection_decision, h1, h2, h3]
  · intro m s h1 h2 h3 h4 h5
    simp only [reflection_decision, h1, h2, h3]
  · intro m h1 h2
    simp [reflection_decision, h1, h2]

/-- Witness for C3: an osu! Mirror mod whose parameter selects "both
directions" decides `Both`, and a Modern set headed by it reflects `Both`. -/
theorem reflection_spec_witness :
    reflection_decision mirror_both = some Reflection.Both ∧
    (GameMods.Lazer [mirror_both]).reflection = Reflection.Both :=
  ⟨rfl, reflection_spec.1 mirror_both Reflection.Both [] rfl⟩

/-- C10: on Modern sets, `reflection` is decided by the first entry in
collection order whose per-entry decision fires, with no priority among the
three deciding kinds: whatever decision the first deciding entry makes is
returned, entries after it (including an osu! Hard-Rock mod) notwithstanding. -/
theorem reflection_lazer_first_match (pre : List GameMod) (m : GameMod)
    (post : List GameMod) (r : Reflection)
    (hpre : ∀ x ∈ pre, reflection_decision x = none)
    (hm : reflection_decision m = some r) :
    (GameMods.Lazer (pre ++ m :: post)).reflection = r := by
  rw [reflection_lazer_eq]
  induction pre with
  | nil => simp [List.findSome?_cons, hm]
  | cons a t ih =>
    have ha : reflection_decision a = none := hpre a (by simp)
    simp only [List.cons_append, List.findSome?_cons, ha]
    exact ih fun x hx => hpre x (by simp [hx])

/-- Witness for C10: an osu! Mirror mod (no parameter) preceding an osu!
Hard-Rock mod yields the Mirror mod's `Horizontal`, not `Vertical`. -/
theorem reflection_lazer_first_match_witness :
    reflection_decision (GameMod.plain .Mirror .Osu) = some Reflection.Horizontal ∧
    (GameMods.Lazer ([] ++ GameMod.plain .Mirror .Osu ::
      [GameMod.plain .HardRock .Osu])).reflection = Reflection.Horizontal ∧
    Reflection.Horizontal ≠ Reflection.Vertical :=
  ⟨rfl,
   reflection_lazer_first_match [] (GameMod.plain .Mirror .Osu)
     [GameMod.plain .HardRock .Osu] Reflection.Horizontal (by simp) rfl,
   by decide⟩

/-- C4: `no_slider_head_acc` returns, on Modern, the first osu! Classic
mod's explicit flag (defaulting to `true` when that mod carries no flag) and
`!lazer` when no osu! Classic mod is present; on Intermediate, `true`
exactly when a Classic identity is present or `lazer` is `false`; on Legacy,
`true` exactly when `lazer` is `false`. -/
theorem no_slider_head_acc_spec :
    (∀ (mods : List GameMod) (lazer : Bool),
      (GameMods.Lazer mods).no_slider_head_acc lazer =
        match mods.find? is_classic_osu with
        | some m => m.no_slider_head_accuracy.getD true
        | none => !lazer) ∧
    (∀ (s : List GameModIntermode) (lazer : Bool),
      ((GameMods.Intermode s).no_slider_head_acc lazer = true ↔
        (GameModIntermode.Classic ∈ s ∨ lazer = false))) ∧
    (∀ (L : GameModsLegacy) (lazer : Bool),
      ((GameMods.Legacy L).no_slider_head_acc lazer = true ↔ lazer = false)) := by
  refine ⟨?_, ?_, ?_⟩
  · intro mods lazer
    induction mods with
    | nil => rfl
    | cons m rest ih =>
      obtain ⟨id, mode, sc, f1, f2, f3, f4, f5, f6, f7, f8, f9⟩ := m
      cases id <;> cases mode <;>
        simp_all [GameMods.no_slider_head_acc, is_classic_osu, List.findSome?_cons, List.find?]
  · intro s lazer
    simp [GameMods.no_slider_head_acc, GameModsIntermode.contains]
  · intro L lazer
    simp [GameMods.no_slider_head_acc]

set_option maxHeartbeats 1600000 in
/-- C5: `mania_keys` scans the "N keys" identities in ascending order, 1
through 10 on Modern and Intermediate and 1 through 9 on Legacy, returning
the first key count whose identity is present and nothing when none is
present; in particular a Modern set with both "4 keys" and "5 keys" yields
4.0. -/
theorem mania_keys_ladder_scan :
    (∀ mods : List GameMod, (GameMods.Lazer mods).mania_keys =
      (([1, 2, 3, 4, 5, 6, 7, 8, 9, 10].find? fun n => (GameMods.Lazer mods).has_key_mod n).map
        fun n => (n : Rat))) ∧
    (∀ s : List GameModIntermode, (GameMods.Intermode s).mania_keys =
      (([1, 2, 3, 4, 5, 6, 7, 8, 9, 10].find? fun n => (GameMods.Intermode s).has_key_mod n).map
        fun n => (n : Rat))) ∧
    (∀ L : GameModsLegacy, (GameMods.Legacy L).mania_keys =
      (([1, 2, 3, 4, 5, 6, 7, 8, 9].find? fun n => (GameMods.Legacy L).has_key_mod n).map
        fun n => (n : Rat))) ∧
    (GameMods.Lazer [GameMod.plain .FourKeys .Mania,
      GameMod.plain .FiveKeys .Mania]).mania_keys = some 4.0 := by
  refine ⟨?_, ?_, ?_, ?_⟩
  · intro mods
    simp only [GameMods.mania_keys, GameMods.has_key_mod, key_identity, List.find?]
    repeat' split
    all_goals simp_all
    all_goals norm_num
  · intro s
    simp only [GameMods.mania_keys, GameMods.has_key_mod, key_identity, List.find?]
    repeat' split
    all_goals simp_all
    all_goals norm_num
  · intro L
    simp only [GameMods.mania_keys, GameMods.has_key_mod, key_identity, key_flag, List.find?]
    repeat' split
    all_goals simp_all
    all_goals norm_num
  · norm_num [GameMods.mania_keys, GameModsLazer.contains_intermode, GameMod.plain,
      GameMod.intermode]
    decide

/-- C6: `od_ar_hp_multiplier` is 1.4 when a Hard-Rock-class mod is present,
else 0.5 when an Easy-class mod is present, else 1.0; with both present the
Hard-Rock branch wins (1.4, not 0.5). -/
theorem od_ar_hp_multiplier_priority (g : GameMods) :
    (g.hr = true → g.od_ar_hp_multiplier = 1.4) ∧
    (g.hr = false → g.ez = true → g.od_ar_hp_multiplier = 0.5) ∧
    (g.hr = false → g.ez = false → g.od_ar_hp_multiplier = 1.0) ∧
    (g.hr = true → g.ez = true → g.od_ar_hp_multiplier = 1.4) := by
  unfold GameMods.od_ar_hp_multiplier
  refine ⟨fun h => ?_, fun h1 h2 => ?_, fun h1 h2 => ?_, fun h _ => ?_⟩ <;> simp [*]

/-- Witness for C6: a set with both Hard-Rock and Easy yields 1.4. -/
theorem od_ar_hp_multiplier_priority_witness :
    (GameMods.Intermode [.HardRock, .Easy]).hr = true ∧
    (GameMods.Intermode [.HardRock, .Easy]).ez = true ∧
    (GameMods.Intermode [.HardRock, .Easy]).od_ar_hp_multiplier = 1.4 :=
  ⟨by decide, by decide,
   (od_ar_hp_multiplier_priority (GameMods.Intermode [.HardRock, .Easy])).2.2.2
     (by decide) (by decide)⟩

/-- C7: on Intermediate and Legacy variants every settings-bearing query —
`ar`, `cs`, `hp`, `od`, `scroll_speed`, `random_seed` — reports "unset". -/
theorem settings_queries_unset_nonlazer (s : List GameModIntermode) (L : GameModsLegacy) :
    (GameMods.Intermode s).ar = none ∧
    (GameMods.Intermode s).cs = none ∧
    (GameMods.Intermode s).hp = none ∧
    (GameMods.Intermode s).od = none ∧
    (GameMods.Intermode s).scroll_speed = none ∧
    (GameMods.Intermode s).random_seed = none ∧
    (GameMods.Legacy L).ar = none ∧
    (GameMods.Legacy L).cs = none ∧
    (GameMods.Legacy L).hp = none ∧
    (GameMods.Legacy L).od = none ∧
    (GameMods.Legacy L).scroll_speed = none ∧
    (GameMods.Legacy L).random_seed = none :=
  ⟨rfl, rfl, rfl, rfl, rfl, rfl, rfl, rfl, rfl, rfl, rfl, rfl⟩

/-- C8: on the Legacy variant, every modern-only presence predicate —
Blinds, Classic, Invert, HoldOff, Traceable — is `false` for every bit
pattern. -/
theorem legacy_modern_only_false (L : GameModsLegacy) :
    (GameMods.Legacy L).bl = false ∧
    (GameMods.Legacy L).cl = false ∧
    (GameMods.Legacy L).invert = false ∧
    (GameMods.Legacy L).ho = false ∧
    (GameMods.Legacy L).tc = false :=
  ⟨rfl, rfl, rfl, rfl, rfl⟩

/-- C9: the default mod set is the Legacy variant with no bits set, every
presence predicate on it is `false`, `clock_rate` is 1.0,
`od_ar_hp_multiplier` is 1.0, and every override query returns its
unset/neutral value. -/
theorem default_no_mods :
    GameMods.DEFAULT = GameMods.Legacy ⟨0⟩ ∧
    GameMods.DEFAULT.nf = false ∧
    GameMods.DEFAULT.ez = false ∧
    GameMods.DEFAULT.td = false ∧
    GameMods.DEFAULT.hd = false ∧
    GameMods.DEFAULT.hr = false ∧
    GameMods.DEFAULT.rx = false ∧
    GameMods.DEFAULT.fl = false ∧
    GameMods.DEFAULT.so = false ∧
    GameMods.DEFAULT.ap = false ∧
    GameMods.DEFAULT.bl = false ∧
    GameMods.DEFAULT.cl = false ∧
    GameMods.DEFAULT.invert = false ∧
    GameMods.DEFAULT.ho = false ∧
    GameMods.DEFAULT.tc = false ∧
    GameMods.DEFAULT.clock_rate = 1.0 ∧
    GameMods.DEFAULT.od_ar_hp_multiplier = 1.0 ∧
    GameMods.DEFAULT.ar = none ∧
    GameMods.DEFAULT.cs = none ∧
    GameMods.DEFAULT.hp = none ∧
    GameMods.DEFAULT.od = none ∧
    GameMods.DEFAULT.scroll_speed = none ∧
    GameMods.DEFAULT.random_seed = none ∧
    GameMods.DEFAULT.mania_keys = none ∧
    GameMods.DEFAULT.reflection = Reflection.None ∧
    GameMods.DEFAULT.hardrock_offsets = false := by
  refine ⟨rfl, by decide, by decide, by decide, by decide, by decide, by decide, by decide,
    by decide, by decide, rfl, rfl, rfl, rfl, rfl, ?_, ?_, rfl, rfl, rfl, rfl, rfl, rfl,
    by decide, by decide, by decide⟩ <;>
    simp [GameMods.DEFAULT, GameMods.clock_rate, GameMods.od_ar_hp_multiplier,
      GameModsLegacy.clock_rate, GameModsLegacy.contains, GameMods.hr, GameMods.ez,
      GameModsLegacy.DoubleTime, GameModsLegacy.HalfTime, GameModsLegacy.HardRock,
      GameModsLegacy.Easy]

end AkatsukiPP
